import Mathlib

/-
Verification of the compose test-fixture lifecycle manager
(crates/test_utils/src/docker.rs).

The embedding models Rust strings as Lean `String`, subprocess invocations as
values of a `Cmd` structure handed to an abstract executor oracle, and the
fallible operations as `Except`-valued functions that also report the list of
commands they issued (their trace), in order.  The process-executor helpers
`get_cmd_output` and `run_command` live in crates/test_utils/src/cmd.rs, which
is not among the provided sources; they are modelled from the specification of
the Process Executor collaborator and are marked as such below.
-/

namespace IcebergTestUtils

/- ---------------------- string primitives ---------------------- -/

/-- Embedding of Rust `str::trim` on the character list: drop leading
whitespace, then drop trailing whitespace. -/
def trimChars (l : List Char) : List Char :=
  ((l.dropWhile Char.isWhitespace).reverse.dropWhile Char.isWhitespace).reverse

/-- Embedding of Rust `str::trim`. -/
def rustTrim (s : String) : String :=
  ⟨trimChars s.data⟩

/-- Embedding of Rust `str::to_lowercase` (agreeing with it on ASCII text,
which is all the version banners contain). -/
def toLowerStr (s : String) : String :=
  ⟨s.data.map Char.toLower⟩

/-- Does the pattern occur as a prefix of the list? Helper for the embedding
of Rust `str::contains`. -/
def startsWithL : List Char → List Char → Bool
  | [], _ => true
  | _ :: _, [] => false
  | p :: ps, c :: cs => (p == c) && startsWithL ps cs

/-- Does the pattern occur as a contiguous sublist? Helper for the embedding
of Rust `str::contains`. -/
def hasSubstr (pat : List Char) : List Char → Bool
  | [] => startsWithL pat []
  | c :: cs => startsWithL pat (c :: cs) || hasSubstr pat cs

/-- Embedding of Rust `str::contains` with a string pattern. -/
def containsStr (s pat : String) : Bool :=
  hasSubstr pat.data s.data

/- ---------------------- socket-address parsing ----------------------

Embedding of `"...".parse::<SocketAddr>()` from the Rust standard library
(core::net::parser): octets and ports are read with the same
greedy-digits / max-digit-count / no-leading-zero / bounded-value rules,
IPv6 supports `::` compression and a trailing embedded IPv4 pair, and a
socket address is an IPv4 form `a.b.c.d:port` or an IPv6 form
`[segments(%scope)]:port`, with the whole input consumed. -/

/-- Embedding of `char::to_digit(radix)`. -/
def digitVal (radix : Nat) (c : Char) : Option Nat :=
  let raw : Option Nat :=
    if c.isDigit then some (c.toNat - 48)
    else if 97 ≤ c.toNat ∧ c.toNat ≤ 122 then some (c.toNat - 87)
    else if 65 ≤ c.toNat ∧ c.toNat ≤ 90 then some (c.toNat - 55)
    else none
  match raw with
  | some d => if d < radix then some d else none
  | none => none

/-- Greedily read digits of the given radix, returning their values and the
remaining input. -/
def takeDigits (radix : Nat) : List Char → List Nat × List Char
  | [] => ([], [])
  | c :: cs =>
    match digitVal radix c with
    | some d =>
      let r := takeDigits radix cs
      (d :: r.1, r.2)
    | none => ([], c :: cs)

/-- Value of a digit sequence in the given radix. -/
def foldDigits (radix : Nat) (ds : List Nat) : Nat :=
  ds.foldl (fun acc d => acc * radix + d) 0

/-- Embedding of the Rust parser `read_number`: greedy digits, at least one,
at most `maxDigits` when given, with a leading zero only allowed when
`allowZeroPre`, and the value bounded by the integer width of the target
type (checked arithmetic). -/
def readNumber (radix : Nat) (maxDigits : Option Nat) (allowZeroPre : Bool) (bound : Nat)
    (s : List Char) : Option (Nat × List Char) :=
  let p := takeDigits radix s
  if p.1.isEmpty then none
  else if (match maxDigits with | some m => decide (m < p.1.length) | none => false) then none
  else if !allowZeroPre && (p.1.head? == some 0) && decide (1 < p.1.length) then none
  else if foldDigits radix p.1 < bound then some (foldDigits radix p.1, p.2) else none

/-- Consume exactly the given character. -/
def expectChar (c : Char) : List Char → Option (List Char)
  | x :: xs => if x == c then some xs else none
  | [] => none

/-- Embedding of the Rust parser `read_separator`: for every item after the
first, a separator character must come first. -/
def readSep {α : Type} (sep : Char) (i : Nat) (p : List Char → Option (α × List Char))
    (s : List Char) : Option (α × List Char) :=
  if i = 0 then p s
  else
    match expectChar sep s with
    | some s1 => p s1
    | none => none

/-- Embedding of `read_ipv4_addr`: four dot-separated octets, each 1-3 digits,
no leading zeros, value below 256. -/
def readIpv4 (s : List Char) : Option ((Nat × Nat × Nat × Nat) × List Char) := do
  let (a, s1) ← readSep '.' 0 (readNumber 10 (some 3) false 256) s
  let (b, s3) ← readSep '.' 1 (readNumber 10 (some 3) false 256) s1
  let (c, s5) ← readSep '.' 2 (readNumber 10 (some 3) false 256) s3
  let (d, s7) ← readSep '.' 3 (readNumber 10 (some 3) false 256) s5
  some ((a, b, c, d), s7)

/-- Embedding of the Rust parser `read_groups`: read up to `remaining` more
colon-separated 16-bit hex groups into an IPv6 address, allowing a trailing
embedded IPv4 address (which fills two groups) while at least two slots
remain.  Returns the groups read, whether the embedded IPv4 form was used,
and the remaining input. -/
def readGroupsGo : Nat → Nat → List Char → List Nat × Bool × List Char
  | 0, _, s => ([], false, s)
  | remaining + 1, i, s =>
    let v4try : Option (List Nat × Bool × List Char) :=
      if 1 ≤ remaining then
        match readSep ':' i readIpv4 s with
        | some ((a, b, c, d), rest) => some ([a * 256 + b, c * 256 + d], true, rest)
        | none => none
      else none
    match v4try with
    | some r => r
    | none =>
      match readSep ':' i (readNumber 16 (some 4) true 65536) s with
      | some (g, rest) =>
        let r := readGroupsGo remaining (i + 1) rest
        (g :: r.1, r.2.1, r.2.2)
      | none => ([], false, s)

/-- Embedding of `read_ipv6_addr`: a head of up to eight groups; when fewer
than eight, a `::` abbreviation followed by a tail, the gap standing for zero
groups.  An embedded IPv4 pair is only allowed at the very end. -/
def readIpv6 (s : List Char) : Option (List Nat × List Char) :=
  let h := readGroupsGo 8 0 s
  if h.1.length = 8 then some (h.1, h.2.2)
  else if h.2.1 then none
  else
    match h.2.2 with
    | ':' :: ':' :: s2 =>
      let t := readGroupsGo (8 - (h.1.length + 1)) 0 s2
      some (h.1 ++ List.replicate (8 - h.1.length - t.1.length) 0 ++ t.1, t.2.2)
    | _ => none

/-- Embedding of `read_scope_id` at its use site: an optional `%` followed by
a decimal `u32`; when absent or malformed, nothing is consumed. -/
def readScopeOpt (s : List Char) : List Char :=
  match s with
  | '%' :: s1 =>
    match readNumber 10 none true 4294967296 s1 with
    | some (_, s2) => s2
    | none => '%' :: s1
  | _ => s

/-- Model of `std::net::IpAddr` as parsed here: an IPv4 address as four
octets, or an IPv6 address as eight 16-bit segments. -/
inductive IpAddr
  | v4 (a b c d : Nat)
  | v6 (segs : List Nat)
deriving DecidableEq, Repr

/-- Model of `std::net::SocketAddr`: an address and a port. -/
structure SocketAddr where
  ip : IpAddr
  port : Nat
deriving DecidableEq, Repr

/-- Embedding of `read_socket_addr_v4`: IPv4 address, colon, port. -/
def parseSockV4 (s : List Char) : Option (SocketAddr × List Char) := do
  let (ip, s1) ← readIpv4 s
  let s2 ← expectChar ':' s1
  let (pt, s3) ← readNumber 10 none true 65536 s2
  some (⟨IpAddr.v4 ip.1 ip.2.1 ip.2.2.1 ip.2.2.2, pt⟩, s3)

/-- Embedding of `read_socket_addr_v6`: bracketed IPv6 address with optional
scope id, colon, port. -/
def parseSockV6 (s : List Char) : Option (SocketAddr × List Char) := do
  let s1 ← expectChar '[' s
  let (segs, s2) ← readIpv6 s1
  let s3 := readScopeOpt s2
  let s4 ← expectChar ']' s3
  let s5 ← expectChar ':' s4
  let (pt, s6) ← readNumber 10 none true 65536 s5
  some (⟨IpAddr.v6 segs, pt⟩, s6)

/-- Embedding of `"...".parse::<SocketAddr>()`: the IPv4 socket form or the
IPv6 socket form, consuming the entire string. -/
def parseSocketAddr (str : String) : Option SocketAddr :=
  match parseSockV4 str.data with
  | some (sa, []) => some sa
  | _ =>
    match parseSockV6 str.data with
    | some (sa, []) => some sa
    | _ => none

/- ---------------------- address display ---------------------- -/

/-- Embedding of `Display for Ipv4Addr`. -/
def ipv4ToString (a b c d : Nat) : String :=
  toString a ++ "." ++ toString b ++ "." ++ toString c ++ "." ++ toString d

/-- Lowercase hexadecimal rendering of one 16-bit segment, no padding. -/
def natToHex (n : Nat) : String :=
  ⟨Nat.toDigits 16 n⟩

/-- Colon-joined hexadecimal segments. -/
def hexJoin (segs : List Nat) : String :=
  String.intercalate (":") (segs.map natToHex)

/-- First longest run of zero segments, as start index and length (strictly
longer runs win, so ties keep the first), following the span search in
`Display for Ipv6Addr`. -/
def lzrGo : List Nat → Nat → Nat × Nat → Nat × Nat → Nat × Nat
  | [], _, _, longest => longest
  | seg :: rest, i, current, longest =>
    if seg == 0 then
      let cur : Nat × Nat := (if current.2 == 0 then i else current.1, current.2 + 1)
      let lng := if longest.2 < cur.2 then cur else longest
      lzrGo rest (i + 1) cur lng
    else
      lzrGo rest (i + 1) (0, 0) longest

/-- First longest run of zero segments in an IPv6 address. -/
def longestZeroRun (segs : List Nat) : Nat × Nat :=
  lzrGo segs 0 (0, 0) (0, 0)

/-- The IPv4-mapped form recognised by `Ipv6Addr::to_ipv4_mapped`. -/
def toIpv4Mapped (segs : List Nat) : Option (Nat × Nat × Nat × Nat) :=
  match segs with
  | [0, 0, 0, 0, 0, 65535, g, h] => some (g / 256, g % 256, h / 256, h % 256)
  | _ => none

/-- Embedding of `Display for Ipv6Addr`: IPv4-mapped addresses print in mixed
notation, otherwise the first longest zero run of length at least two is
abbreviated to `::`. -/
def ipv6ToString (segs : List Nat) : String :=
  match toIpv4Mapped segs with
  | some (a, b, c, d) => ("::ffff:") ++ ipv4ToString a b c d
  | none =>
    let z := longestZeroRun segs
    if 1 < z.2 then
      hexJoin (segs.take z.1) ++ ("::") ++ hexJoin (segs.drop (z.1 + z.2))
    else
      hexJoin segs

/-- Embedding of `IpAddr::is_unspecified`: the all-zero wildcard address. -/
def IpAddr.is_unspecified : IpAddr → Bool
  | IpAddr.v4 a b c d => (a == 0) && (b == 0) && (c == 0) && (d == 0)
  | IpAddr.v6 segs => segs.all (fun g => g == 0)

/-- Embedding of `IpAddr::to_string` (the `Display` implementation). -/
def IpAddr.to_string : IpAddr → String
  | IpAddr.v4 a b c d => ipv4ToString a b c d
  | IpAddr.v6 segs => ipv6ToString segs

/- ---------------------- data model ---------------------- -/

/-- The two engine variants (docker.rs `enum EngineProvider`). -/
inductive EngineProvider
  | Docker
  | Podman
deriving DecidableEq, Repr

/-- A subprocess invocation: program, arguments, optional working directory,
and environment overrides, as assembled on a `std::process::Command`. -/
structure Cmd where
  program : String
  args : List String
  cwd : Option String := none
  env : List (String × String) := []
deriving DecidableEq, Repr

/-- The failure payload of the Process Executor on a non-zero exit, per the
spec contract: the exit code with the captured standard error attached. -/
structure CmdFailure where
  exitCode : Int
  stderr : String
deriving DecidableEq, Repr

/-- How an embedded operation can fail fatally: a subprocess failure
propagated by the executor, or a Rust `expect` on a malformed value. -/
inductive Failure
  | cmdFailed (f : CmdFailure)
  | panicked (msg : String)
deriving DecidableEq, Repr

/-- The abstract process-executor oracle: what each command would produce
when run (captured stdout on success, exit code and stderr on failure). -/
structure Executor where
  result : Cmd → Except CmdFailure String

/-- Modelled from the spec: `get_cmd_output` from crates/test_utils/src/cmd.rs
is not among the provided sources.  Per the Process Executor collaborator
contract it runs the command and returns captured standard output on
success, and on non-zero exit fails fatally with the exit code and captured
standard error attached.  The returned list is the trace of issued
commands. -/
def get_cmd_output (E : Executor) (c : Cmd) : List Cmd × Except Failure String :=
  match E.result c with
  | Except.ok out => ([c], Except.ok out)
  | Except.error f => ([c], Except.error (Failure.cmdFailed f))

/-- Modelled from the spec: `run_command` from crates/test_utils/src/cmd.rs
as used on the bring-up path, where per the spec a non-zero exit from
bring-up is fatal with the captured diagnostics attached. -/
def run_command_fatal (E : Executor) (c : Cmd) : List Cmd × Except Failure Unit :=
  match E.result c with
  | Except.ok _ => ([c], Except.ok ())
  | Except.error f => ([c], Except.error (Failure.cmdFailed f))

/-- The engine version probe, `docker --version`. -/
def engineProbeCmd : Cmd :=
  { program := "docker", args := [("--version")], cwd := none, env := [] }

/-- The pure classification step of `get_engine_provider`: trim and lowercase
the version text, classify as Podman exactly when it contains the substring
`podman`, and as Docker otherwise. -/
def classifyEngine (vers : String) : EngineProvider :=
  if containsStr (toLowerStr (rustTrim vers)) ("podman") then EngineProvider.Podman
  else EngineProvider.Docker

/-- Embedding of `get_engine_provider`: run the version probe and classify
its output; a probe failure propagates. -/
def get_engine_provider (E : Executor) : List Cmd × Except Failure EngineProvider :=
  match get_cmd_output E engineProbeCmd with
  | (t, Except.ok out) => (t, Except.ok (classifyEngine out))
  | (t, Except.error f) => (t, Except.error f)

/-- The fixture state (docker.rs `struct DockerCompose`). -/
structure DockerCompose where
  project_name : String
  docker_compose_dir : String
  engine_provider : EngineProvider
deriving DecidableEq, Repr

/-- Embedding of `DockerCompose::new`: detect the engine and construct the
fixture; a detection failure aborts construction. -/
def DockerCompose.new (E : Executor) (project_name docker_compose_dir : String) :
    List Cmd × Except Failure DockerCompose :=
  match get_engine_provider E with
  | (t, Except.ok ep) => (t, Except.ok ⟨project_name, docker_compose_dir, ep⟩)
  | (t, Except.error f) => (t, Except.error f)

/-- The platform format template passed to `docker version --format`. -/
def osArchTemplate : String := "\x7b\x7b.Server.OsArch\x7d\x7d"

/-- The server-platform query, `docker version --format` with the platform
template. -/
def versionCmd : Cmd :=
  { program := "docker", args := ["version", "--format", osArchTemplate], cwd := none, env := [] }

/-- Embedding of `DockerCompose::get_os_arch`: query the server platform and
trim the output. -/
def get_os_arch (E : Executor) : List Cmd × Except Failure String :=
  match get_cmd_output E versionCmd with
  | (t, Except.ok out) => (t, Except.ok (rustTrim out))
  | (t, Except.error f) => (t, Except.error f)

/-- The compose bring-up command assembled by `DockerCompose::run`: working
directory set to the compose directory, the platform injected as the
`DOCKER_DEFAULT_PLATFORM` environment override, detached mode, a readiness
wait, and the long bounded timeout. -/
def upCmd (project dir platform : String) : Cmd :=
  { program := "docker",
    args := ["compose", "-p", project, "up", "-d", "--wait", "--timeout", "1200000"],
    cwd := some dir,
    env := [("DOCKER_DEFAULT_PLATFORM", platform)] }

/-- Embedding of `DockerCompose::run`: query the server platform, then issue
the bring-up command with the platform override; either failure is fatal. -/
def DockerCompose.run (E : Executor) (dc : DockerCompose) : List Cmd × Except Failure Unit :=
  match get_os_arch E with
  | (t, Except.error f) => (t, Except.error f)
  | (t, Except.ok osArch) =>
    match run_command_fatal E (upCmd dc.project_name dc.docker_compose_dir osArch) with
    | (t2, r) => (t ++ t2, r)

/-- The container-name derivation shared by both resolution strategies,
`format!` of project name, hyphen, service name, hyphen, the digit 1. -/
def containerName (project service : String) : String :=
  project ++ "-" ++ service ++ "-1"

/-- The IP format template passed to `docker inspect -f`. -/
def ipTemplate : String :=
  "\x7b\x7brange.NetworkSettings.Networks\x7d\x7d\x7b\x7b.IPAddress\x7d\x7d\x7b\x7bend\x7d\x7d"

/-- The container-IP inspect query, `docker inspect -f` with the IP template. -/
def inspectCmd (container : String) : Cmd :=
  { program := "docker", args := ["inspect", "-f", ipTemplate, container], cwd := none, env := [] }

/-- The port-mapping query, `docker port` for one internal port. -/
def portCmd (container : String) (unmapped_port : Nat) : Cmd :=
  { program := "docker", args := ["port", container, toString unmapped_port], cwd := none, env := [] }

/-- Embedding of `DockerCompose::get_container_ip`: inspect the container and
trim the reported network IP. -/
def DockerCompose.get_container_ip (E : Executor) (dc : DockerCompose) (service_name : String) :
    List Cmd × Except Failure String :=
  match get_cmd_output E (inspectCmd (containerName dc.project_name service_name)) with
  | (t, Except.ok out) => (t, Except.ok (rustTrim out))
  | (t, Except.error f) => (t, Except.error f)

/-- Embedding of `DockerCompose::get_mapped_container_socket`: query the port
mapping, parse the trimmed output as a socket address (an unparseable string
panics via `expect`), substitute loopback for the unspecified wildcard, and
return the mapped port. -/
def DockerCompose.get_mapped_container_socket (E : Executor) (dc : DockerCompose)
    (service_name : String) (unmapped_port : Nat) : List Cmd × Except Failure (String × Nat) :=
  match get_cmd_output E (portCmd (containerName dc.project_name service_name) unmapped_port) with
  | (t, Except.error f) => (t, Except.error f)
  | (t, Except.ok out) =>
    match parseSocketAddr (rustTrim out) with
    | none => (t, Except.error (Failure.panicked ("Unable to parse socket address")))
    | some sock =>
      if sock.ip.is_unspecified then (t, Except.ok (("127.0.0.1"), sock.port))
      else (t, Except.ok (sock.ip.to_string, sock.port))

/-- Embedding of `DockerCompose::get_container_socket`: dispatch on the
cached engine variant, direct IP with the internal port under Docker, the
mapped socket under Podman. -/
def DockerCompose.get_container_socket (E : Executor) (dc : DockerCompose)
    (service_name : String) (unmapped_port : Nat) : List Cmd × Except Failure (String × Nat) :=
  match dc.engine_provider with
  | EngineProvider.Docker =>
    match DockerCompose.get_container_ip E dc service_name with
    | (t, Except.ok ip) => (t, Except.ok (ip, unmapped_port))
    | (t, Except.error f) => (t, Except.error f)
  | EngineProvider.Podman =>
    DockerCompose.get_mapped_container_socket E dc service_name unmapped_port

/-- The compose tear-down command assembled by `Drop for DockerCompose`:
working directory set to the compose directory, volume removal, orphan
removal. -/
def downCmd (project dir : String) : Cmd :=
  { program := "docker",
    args := ["compose", "-p", project, "down", "-v", "--remove-orphans"],
    cwd := some dir,
    env := [] }

/-- The log line surfaced when a tear-down command fails. -/
def teardownFailureLog (dc : DockerCompose) (f : CmdFailure) : String :=
  ("Stopping docker compose in ") ++ dc.docker_compose_dir ++ (", project name: ")
    ++ dc.project_name ++ (" failed: ") ++ f.stderr

/-- Embedding of `Drop for DockerCompose`, with `run_command` on this path
modelled from the spec (crates/test_utils/src/cmd.rs is not among the
provided sources): the tear-down command is issued once; per the teardown
contract a failure is surfaced as a log line and never escalates, so the
outcome component is an error in no case.  Returns the trace of issued
commands, the surfaced log lines, and the outcome. -/
def DockerCompose.drop (E : Executor) (dc : DockerCompose) :
    List Cmd × List String × Except Failure Unit :=
  match E.result (downCmd dc.project_name dc.docker_compose_dir) with
  | Except.ok _ => ([downCmd dc.project_name dc.docker_compose_dir], [], Except.ok ())
  | Except.error f =>
    ([downCmd dc.project_name dc.docker_compose_dir], [teardownFailureLog dc f], Except.ok ())

/-- One client scope using the fixture, modelling Rust ownership: construct
the fixture; when construction fails no fixture exists and nothing further
runs; otherwise optionally call `run`, and whether it returns normally or
fails (unwinding), `drop` runs when the scope ends.  Returns the full trace
of issued commands and the scope outcome. -/
def fixtureScope (E : Executor) (project dir : String) (callRun : Bool) :
    List Cmd × Except Failure Unit :=
  match DockerCompose.new E project dir with
  | (t0, Except.error f) => (t0, Except.error f)
  | (t0, Except.ok dc) =>
    if callRun then
      match DockerCompose.run E dc with
      | (t1, r) => (t0 ++ t1 ++ (DockerCompose.drop E dc).1, r)
    else
      (t0 ++ (DockerCompose.drop E dc).1, Except.ok ())

/- ---------------------- helper lemmas and concrete executors ---------------------- -/

/-- The tear-down embedding issues exactly the tear-down command, whatever
the executor reports. -/
theorem drop_trace (E : Executor) (dc : DockerCompose) :
    (DockerCompose.drop E dc).1 = [downCmd dc.project_name dc.docker_compose_dir] := by
  unfold DockerCompose.drop
  cases E.result (downCmd dc.project_name dc.docker_compose_dir) <;> rfl

/-- An executor answering every command with the same captured output. -/
def constExec (out : String) : Executor :=
  ⟨fun _ => Except.ok out⟩

/-- An executor on which every command exits non-zero. -/
def failExec : Executor :=
  ⟨fun _ => Except.error ⟨1, ("probe failed")⟩⟩

/-- An executor on which the compose bring-up command fails and every other
command succeeds with a Docker version banner. -/
def upFailExec : Executor :=
  ⟨fun c =>
    if c.args.contains ("up") then Except.error ⟨1, ("up failed")⟩
    else Except.ok ("Docker version 27.0")⟩

/-- A fixture pinned to the Docker variant. -/
def dcDocker : DockerCompose :=
  ⟨"it", "dir", EngineProvider.Docker⟩

/-- A fixture pinned to the Podman variant. -/
def dcPodman : DockerCompose :=
  ⟨"it", "dir", EngineProvider.Podman⟩

/- ---------------------- claim theorems ---------------------- -/

/-- C5: for all project names and service names, both resolution strategies
derive the container name deterministically as project name, hyphen, service
name, hyphen, the digit 1: the derivation equals that string, and the single
command issued by the direct-IP strategy and by the port-mapping strategy
names exactly that container. -/
theorem container_name_derivation (E : Executor) (dc : DockerCompose)
    (S : String) (port : Nat) :
    containerName dc.project_name S = dc.project_name ++ "-" ++ S ++ "-1" ∧
    (DockerCompose.get_container_ip E dc S).1 =
      [inspectCmd (containerName dc.project_name S)] ∧
    (DockerCompose.get_mapped_container_socket E dc S port).1 =
      [portCmd (containerName dc.project_name S) port] := by
  refine ⟨rfl, ?_, ?_⟩
  · cases h : E.result (inspectCmd (containerName dc.project_name S)) <;>
      simp [DockerCompose.get_container_ip, get_cmd_output, h]
  · cases h : E.result (portCmd (containerName dc.project_name S) port) with
    | error f =>
      simp [DockerCompose.get_mapped_container_socket, get_cmd_output, h]
    | ok out =>
      cases h2 : parseSocketAddr (rustTrim out) with
      | none =>
        simp [DockerCompose.get_mapped_container_socket, get_cmd_output, h, h2]
      | some sock =>
        by_cases h3 : sock.ip.is_unspecified <;>
          simp [DockerCompose.get_mapped_container_socket, get_cmd_output, h, h2, h3]

/-- C3: under the Docker variant, resolution returns the internal port
unchanged as the second element for every internal port value, and the first
element is the trimmed output of the container-IP inspect query. -/
theorem docker_resolution_keeps_internal_port (E : Executor) (dc : DockerCompose)
    (S out : String) (port : Nat)
    (hE : dc.engine_provider = EngineProvider.Docker)
    (hout : E.result (inspectCmd (containerName dc.project_name S)) = Except.ok out) :
    (DockerCompose.get_container_socket E dc S port).2 = Except.ok (rustTrim out, port) := by
  simp [DockerCompose.get_container_socket, hE, DockerCompose.get_container_ip,
    get_cmd_output, hout]

/-- Witness for C3: the end-to-end scenario with mocked inspect output
`172.18.0.3` and internal port 6379 resolves to that address and port. -/
theorem docker_resolution_keeps_internal_port_witness :
    (DockerCompose.get_container_socket (constExec ("172.18.0.3\n")) dcDocker
      ("redis") 6379).2 = Except.ok (("172.18.0.3"), 6379) := by
  have h := docker_resolution_keeps_internal_port (constExec ("172.18.0.3\n")) dcDocker
    ("redis") ("172.18.0.3\n") 6379 rfl rfl
  rw [h]
  simp only [Except.ok.injEq]
  decide

/-- C10: under the Docker variant the public interface performs no validation
of the inspect output: any trimmed output, the empty string included, is
returned as the host with the internal port, and no error is ever raised. -/
theorem docker_resolution_no_validation (E : Executor) (dc : DockerCompose)
    (S out : String) (port : Nat)
    (hE : dc.engine_provider = EngineProvider.Docker)
    (hout : E.result (inspectCmd (containerName dc.project_name S)) = Except.ok out) :
    (DockerCompose.get_container_socket E dc S port).2 = Except.ok (rustTrim out, port) ∧
    ∀ f, (DockerCompose.get_container_socket E dc S port).2 ≠ Except.error f := by
  have h : (DockerCompose.get_container_socket E dc S port).2 =
      Except.ok (rustTrim out, port) := by
    simp [DockerCompose.get_container_socket, hE, DockerCompose.get_container_ip,
      get_cmd_output, hout]
  exact ⟨h, fun f hf => by rw [h] at hf; exact Except.noConfusion hf⟩

/-- Witness for C10: an empty inspect output (a container reporting no
network IP) is returned verbatim as the host, without any error. -/
theorem docker_resolution_no_validation_witness :
    (DockerCompose.get_container_socket (constExec ("")) dcDocker ("redis") 6379).2 =
      Except.ok ((""), 6379) := by
  have h := docker_resolution_no_validation (constExec ("")) dcDocker
    ("redis") ("") 6379 rfl rfl
  rw [h.1]
  simp only [Except.ok.injEq]
  decide

/-- C2: under the Podman variant, resolution parses the port-query output as
a socket address and returns the mapped port as the second element; the host
is the loopback address when the parsed address is the unspecified wildcard,
and the parsed address rendered verbatim otherwise. -/
theorem podman_resolution_maps_port (E : Executor) (dc : DockerCompose)
    (S out : String) (port : Nat) (sa : SocketAddr)
    (hE : dc.engine_provider = EngineProvider.Podman)
    (hout : E.result (portCmd (containerName dc.project_name S) port) = Except.ok out)
    (hparse : parseSocketAddr (rustTrim out) = some sa) :
    (DockerCompose.get_container_socket E dc S port).2 =
      Except.ok ((if sa.ip.is_unspecified then ("127.0.0.1") else sa.ip.to_string),
        sa.port) := by
  by_cases h3 : sa.ip.is_unspecified <;>
    simp [DockerCompose.get_container_socket, hE, DockerCompose.get_mapped_container_socket,
      get_cmd_output, hout, hparse, h3]

/-- Witness for C2: the end-to-end scenario with mocked port-query output
`0.0.0.0:54321` for internal port 6379 resolves to the loopback host with
the mapped port 54321. -/
theorem podman_resolution_maps_port_witness :
    (DockerCompose.get_container_socket (constExec ("0.0.0.0:54321")) dcPodman
      ("redis") 6379).2 = Except.ok (("127.0.0.1"), 54321) := by
  have h := podman_resolution_maps_port (constExec ("0.0.0.0:54321")) dcPodman
    ("redis") ("0.0.0.0:54321") 6379 ⟨IpAddr.v4 0 0 0 0, 54321⟩ rfl rfl (by decide)
  rw [h]
  simp only [Except.ok.injEq]
  decide

/-- C8: under the Podman variant, a successfully captured port-query output
whose trimmed text does not parse as a socket address is a fatal parse
error, with no partial or degraded result. -/
theorem malformed_socket_fatal (E : Executor) (dc : DockerCompose)
    (S out : String) (port : Nat)
    (hE : dc.engine_provider = EngineProvider.Podman)
    (hout : E.result (portCmd (containerName dc.project_name S) port) = Except.ok out)
    (hparse : parseSocketAddr (rustTrim out) = none) :
    (DockerCompose.get_container_socket E dc S port).2 =
      Except.error (Failure.panicked ("Unable to parse socket address")) := by
  simp [DockerCompose.get_container_socket, hE, DockerCompose.get_mapped_container_socket,
    get_cmd_output, hout, hparse]

/-- Witness for C8: a port-query output that is not a socket address makes
resolution fail with the parse panic. -/
theorem malformed_socket_fatal_witness :
    (DockerCompose.get_container_socket (constExec ("no socket here")) dcPodman
      ("redis") 6379).2 =
      Except.error (Failure.panicked ("Unable to parse socket address")) :=
  malformed_socket_fatal (constExec ("no socket here")) dcPodman
    ("redis") ("no socket here") 6379 rfl rfl (by decide)

/-- C7: if the engine version probe exits non-zero (or cannot be executed),
detection fails fatally and the failure propagates out of the constructor,
so construction aborts; and every fixture the constructor does produce
carries the variant classified from the actual probe output, never a
defaulted one. -/
theorem detection_failure_aborts_construction (E : Executor) (p d : String) :
    (∀ f, E.result engineProbeCmd = Except.error f →
      (DockerCompose.new E p d).2 = Except.error (Failure.cmdFailed f)) ∧
    (∀ dc, (DockerCompose.new E p d).2 = Except.ok dc →
      ∃ out, E.result engineProbeCmd = Except.ok out ∧
        dc.engine_provider = classifyEngine out) := by
  constructor
  · intro f hf
    simp [DockerCompose.new, get_engine_provider, get_cmd_output, hf]
  · intro dc hdc
    cases h : E.result engineProbeCmd with
    | error f =>
      simp [DockerCompose.new, get_engine_provider, get_cmd_output, h] at hdc
    | ok out =>
      refine ⟨out, rfl, ?_⟩
      simp [DockerCompose.new, get_engine_provider, get_cmd_output, h] at hdc
      rw [← hdc]

/-- Witness for C7: on an executor whose probe fails, construction returns
that failure and no fixture. -/
theorem detection_failure_aborts_construction_witness :
    (DockerCompose.new failExec ("it") ("dir")).2 =
      Except.error (Failure.cmdFailed ⟨1, ("probe failed")⟩) :=
  (detection_failure_aborts_construction failExec ("it") ("dir")).1
    ⟨1, ("probe failed")⟩ rfl

/-- C9: `run` first issues the single platform query and then the compose
bring-up command, in that order and nothing else; the bring-up command
carries the trimmed platform answer as the `DOCKER_DEFAULT_PLATFORM`
environment override, has the project directory as working directory, and
requests detached mode, a readiness wait, and the long bounded timeout. -/
theorem run_platform_injection_and_flags (E : Executor) (dc : DockerCompose) (v : String)
    (hv : E.result versionCmd = Except.ok v) :
    (DockerCompose.run E dc).1 =
      [versionCmd, upCmd dc.project_name dc.docker_compose_dir (rustTrim v)] ∧
    versionCmd.args = ["version", "--format", osArchTemplate] ∧
    (upCmd dc.project_name dc.docker_compose_dir (rustTrim v)).env =
      [("DOCKER_DEFAULT_PLATFORM", rustTrim v)] ∧
    (upCmd dc.project_name dc.docker_compose_dir (rustTrim v)).cwd =
      some dc.docker_compose_dir ∧
    (upCmd dc.project_name dc.docker_compose_dir (rustTrim v)).args =
      ["compose", "-p", dc.project_name, "up", "-d", "--wait", "--timeout", "1200000"] := by
  refine ⟨?_, rfl, rfl, rfl, rfl⟩
  cases hu : E.result (upCmd dc.project_name dc.docker_compose_dir (rustTrim v)) <;>
    simp [DockerCompose.run, get_os_arch, get_cmd_output, run_command_fatal, hv, hu]

/-- Witness for C9: with a concrete platform answer, `run` issues exactly the
platform query followed by the bring-up command carrying that platform. -/
theorem run_platform_injection_and_flags_witness :
    (DockerCompose.run (constExec ("linux/amd64\n")) dcDocker).1 =
      [versionCmd, upCmd ("it") ("dir") (rustTrim ("linux/amd64\n"))] :=
  (run_platform_injection_and_flags (constExec ("linux/amd64\n")) dcDocker
    ("linux/amd64\n") rfl).1

/-- C6: teardown failures are non-fatal: for every fixture and every executor
the teardown path issues the tear-down command, surfaces a failing exit as a
log line, and its outcome is never an error, so it cannot panic or abort the
caller. -/
theorem teardown_failure_nonfatal (E : Executor) (dc : DockerCompose) :
    (DockerCompose.drop E dc).2.2 = Except.ok () ∧
    (DockerCompose.drop E dc).1 = [downCmd dc.project_name dc.docker_compose_dir] ∧
    (∀ f, E.result (downCmd dc.project_name dc.docker_compose_dir) = Except.error f →
      (DockerCompose.drop E dc).2.1 = [teardownFailureLog dc f]) := by
  refine ⟨?_, drop_trace E dc, ?_⟩
  · unfold DockerCompose.drop
    cases E.result (downCmd dc.project_name dc.docker_compose_dir) <;> rfl
  · intro f hf
    simp [DockerCompose.drop, hf]

/-- Witness for C6: on an executor whose tear-down command fails, the
teardown path still completes normally and surfaces the failure as a log. -/
theorem teardown_failure_nonfatal_witness :
    (DockerCompose.drop failExec dcDocker).2.2 = Except.ok () ∧
    (DockerCompose.drop failExec dcDocker).2.1 =
      [teardownFailureLog dcDocker ⟨1, ("probe failed")⟩] :=
  ⟨(teardown_failure_nonfatal failExec dcDocker).1,
    (teardown_failure_nonfatal failExec dcDocker).2.2 ⟨1, ("probe failed")⟩ rfl⟩

/- ---------------------- the teardown-exactly-once trace argument ---------------------- -/

/-- The version probe is never the tear-down command. -/
theorem probe_ne_down (p d : String) : (engineProbeCmd = downCmd p d) = False := by
  simp [engineProbeCmd, downCmd]

/-- The platform query is never the tear-down command. -/
theorem version_ne_down (p d : String) : (versionCmd = downCmd p d) = False := by
  simp [versionCmd, downCmd]

/-- The bring-up command is never the tear-down command. -/
theorem up_ne_down (p1 d1 pf p d : String) : (upCmd p1 d1 pf = downCmd p d) = False := by
  simp [upCmd, downCmd]

/-- C1: for every constructed fixture the tear-down command for its project
and directory appears exactly once in the trace of the owning scope, on
every exit path, the path where `run` fails after construction included; and
when construction itself fails, no fixture exists and the tear-down command
is never issued. -/
theorem scope_teardown_exactly_once (E : Executor) (p d : String) (callRun : Bool) :
    (∀ out, E.result engineProbeCmd = Except.ok out →
      ((fixtureScope E p d callRun).1.countP (fun c => decide (c = downCmd p d))) = 1) ∧
    (∀ f, E.result engineProbeCmd = Except.error f →
      ((fixtureScope E p d callRun).1.countP (fun c => decide (c = downCmd p d))) = 0) := by
  constructor
  · intro out hout
    have hnew : DockerCompose.new E p d =
        ([engineProbeCmd], Except.ok ⟨p, d, classifyEngine out⟩) := by
      simp [DockerCompose.new, get_engine_provider, get_cmd_output, hout]
    cases callRun with
    | false =>
      simp [fixtureScope, hnew, drop_trace, List.countP_append, List.countP_cons,
        probe_ne_down]
    | true =>
      cases hv : E.result versionCmd with
      | error f =>
        simp [fixtureScope, hnew, DockerCompose.run, get_os_arch, get_cmd_output, hv,
          drop_trace, List.countP_append, List.countP_cons, probe_ne_down, version_ne_down]
      | ok v =>
        cases hu : E.result (upCmd p d (rustTrim v)) <;>
          simp [fixtureScope, hnew, DockerCompose.run, get_os_arch, get_cmd_output,
            run_command_fatal, hv, hu, drop_trace, List.countP_append, List.countP_cons,
            probe_ne_down, version_ne_down, up_ne_down]
  · intro f hf
    simp [fixtureScope, DockerCompose.new, get_engine_provider, get_cmd_output, hf,
      List.countP_cons, probe_ne_down]

/-- Witness for C1: a scope in which construction succeeds and the bring-up
command then fails still contains the tear-down command exactly once. -/
theorem scope_teardown_exactly_once_witness :
    ((fixtureScope upFailExec ("it") ("dir") true).1.countP
      (fun c => decide (c = downCmd ("it") ("dir")))) = 1 :=
  (scope_teardown_exactly_once upFailExec ("it") ("dir") true).1
    ("Docker version 27.0") rfl

/- ---------------------- classification insensitivity lemmas ---------------------- -/

/-- Converting a valid code point to a character and back is the identity. -/
theorem char_toNat_ofNat_valid {n : Nat} (h : n.isValidChar) : (Char.ofNat n).toNat = n := by
  rw [Char.ofNat, dif_pos h]
  rfl

/-- A character with code point at least 33 is not whitespace. -/
theorem not_ws_of_ge (cc : Char) (h : 33 ≤ cc.toNat) : cc.isWhitespace = false := by
  have h1 : cc ≠ ' ' := by intro e; subst e; exact absurd h (by decide)
  have h2 : cc ≠ '\t' := by intro e; subst e; exact absurd h (by decide)
  have h3 : cc ≠ '\r' := by intro e; subst e; exact absurd h (by decide)
  have h4 : cc ≠ '\n' := by intro e; subst e; exact absurd h (by decide)
  simp [Char.isWhitespace, h1, h2, h3, h4]

/-- Lowercasing never changes whether a character is whitespace. -/
theorem isWhitespace_toLower (c : Char) :
    (Char.toLower c).isWhitespace = c.isWhitespace := by
  simp only [Char.toLower]
  split
  · rename_i h
    have hge : 65 ≤ c.toNat ∧ c.toNat ≤ 90 := h
    have hv : Nat.isValidChar (c.toNat + 32) := Or.inl (by omega)
    have ht := char_toNat_ofNat_valid hv
    rw [not_ws_of_ge (Char.ofNat (c.toNat + 32)) (by omega),
      not_ws_of_ge c (by omega)]
  · rfl

/-- Trimming commutes with lowercasing the characters. -/
theorem trimChars_map_toLower (l : List Char) :
    trimChars (l.map Char.toLower) = (trimChars l).map Char.toLower := by
  have hp : (Char.isWhitespace ∘ Char.toLower) = Char.isWhitespace := by
    funext c
    exact isWhitespace_toLower c
  unfold trimChars
  rw [List.dropWhile_map, hp, ← List.map_reverse, List.dropWhile_map, hp, ← List.map_reverse]

/-- Trimming ignores an all-whitespace block on the left. -/
theorem trimChars_ws_left (ws l : List Char) (h : ∀ c ∈ ws, c.isWhitespace = true) :
    trimChars (ws ++ l) = trimChars l := by
  unfold trimChars
  rw [List.dropWhile_append_of_pos h]

/-- Trimming ignores an all-whitespace block on the right. -/
theorem trimChars_ws_right (l ws : List Char) (h : ∀ c ∈ ws, c.isWhitespace = true) :
    trimChars (l ++ ws) = trimChars l := by
  unfold trimChars
  rw [List.dropWhile_append]
  by_cases he : (l.dropWhile Char.isWhitespace).isEmpty
  · rw [if_pos he]
    have hws : ws.dropWhile Char.isWhitespace = [] :=
      List.dropWhile_eq_nil_iff.mpr h
    have hl : l.dropWhile Char.isWhitespace = [] := List.isEmpty_iff.mp he
    rw [hws, hl]
  · rw [if_neg he, List.reverse_append,
      List.dropWhile_append_of_pos (fun a ha => h a (List.mem_reverse.mp ha))]

/-- Classification depends only on the lowercase image of the input. -/
theorem classify_eq_of_toLower_eq (s t : String) (h : toLowerStr s = toLowerStr t) :
    classifyEngine s = classifyEngine t := by
  have hd : s.data.map Char.toLower = t.data.map Char.toLower := by
    have := congrArg String.data h
    simpa [toLowerStr] using this
  have key : (trimChars s.data).map Char.toLower = (trimChars t.data).map Char.toLower := by
    rw [← trimChars_map_toLower, ← trimChars_map_toLower, hd]
  unfold classifyEngine containsStr toLowerStr rustTrim
  rw [key]

/-- Classification ignores all-whitespace padding on either side. -/
theorem classify_ws_invariant (ws s tws : String)
    (h1 : ∀ c ∈ ws.data, c.isWhitespace = true)
    (h2 : ∀ c ∈ tws.data, c.isWhitespace = true) :
    classifyEngine (ws ++ s ++ tws) = classifyEngine s := by
  unfold classifyEngine containsStr toLowerStr rustTrim
  have hd : (ws ++ s ++ tws).data = ws.data ++ (s.data ++ tws.data) := by
    simp [String.data_append]
  rw [hd, trimChars_ws_left ws.data (s.data ++ tws.data) h1,
    trimChars_ws_right s.data tws.data h2]

/-- C4: engine classification is a pure function of the version-probe text:
the detector classifies the probe output with `classifyEngine`, which yields
Podman exactly when the lowercased, trimmed text contains the substring
`podman` and Docker otherwise; and neither surrounding whitespace nor letter
case of the input ever changes the result. -/
theorem engine_classification_pure (s : String) :
    (∀ (E : Executor) (out : String), E.result engineProbeCmd = Except.ok out →
      (get_engine_provider E).2 = Except.ok (classifyEngine out)) ∧
    (classifyEngine s = EngineProvider.Podman ↔
      containsStr (toLowerStr (rustTrim s)) ("podman") = true) ∧
    (classifyEngine s = EngineProvider.Docker ↔
      containsStr (toLowerStr (rustTrim s)) ("podman") = false) ∧
    (∀ t, toLowerStr s = toLowerStr t → classifyEngine s = classifyEngine t) ∧
    (∀ ws tws, (∀ c ∈ ws.data, c.isWhitespace = true) →
      (∀ c ∈ tws.data, c.isWhitespace = true) →
      classifyEngine (ws ++ s ++ tws) = classifyEngine s) := by
  refine ⟨?_, ?_, ?_, fun t h => classify_eq_of_toLower_eq s t h,
    fun ws tws h1 h2 => classify_ws_invariant ws s tws h1 h2⟩
  · intro E out hout
    simp [get_engine_provider, get_cmd_output, hout]
  · unfold classifyEngine
    split <;> simp_all
  · unfold classifyEngine
    split <;> simp_all

/-- Witness for C4: the detector classifies a concrete Podman banner output;
whitespace padding and a case change of a concrete banner leave the
classification unchanged. -/
theorem engine_classification_pure_witness :
    (get_engine_provider (constExec ("podman version 4.9.3"))).2 =
      Except.ok (classifyEngine ("podman version 4.9.3")) ∧
    classifyEngine ((" \t") ++ ("PODMAN version 4.9.3") ++ ("\n")) =
      classifyEngine ("PODMAN version 4.9.3") ∧
    classifyEngine ("PODMAN version 4.9.3") = classifyEngine ("podman Version 4.9.3") :=
  ⟨(engine_classification_pure ("podman version 4.9.3")).1
      (constExec ("podman version 4.9.3")) ("podman version 4.9.3") rfl,
    (engine_classification_pure ("PODMAN version 4.9.3")).2.2.2.2
      (" \t") ("\n") (by decide) (by decide),
    (engine_classification_pure ("PODMAN version 4.9.3")).2.2.2.1
      ("podman Version 4.9.3") (by decide)⟩

end IcebergTestUtils
